import Mathlib

/-!
# PrintLink — verification of the request/offer lifecycle logic

Shallow embedding of the client-side logic of the PrintLink marketplace
(two source variants: `src/PrintLink.jsx`, the simple queue variant, and the
full marketplace variant in `src/unnamed/part_000`).

Machine integers and JS numbers are modelled as `Nat` / `ℚ`; the JS value
`NaN` (produced by `parseFloat` on non-numeric input) is modelled as `none`
in `Option ℚ`.  The Firestore document store is modelled as an explicit
state: a list of request documents keyed by id, plus a flat list of offer
documents keyed by their parent request id (mirroring the
`printRequests/{id}/offers` sub-collection paths).
-/

namespace PrintLink

/-- A JS-like value as held in a React form-state slot (the `number`-typed
`quantity` field holds whatever the input's `e.target.value` or programmatic
updates put there: a string, a number, or null). -/
inductive FieldValue where
  | str (s : String)
  | num (q : ℚ)
  | null
  | list (l : List String)
  deriving DecidableEq, Repr

/-- Model of the JS builtin `String.prototype.trim`: drop whitespace from
both ends (structural recursion via `List.dropWhile`, so it evaluates by
kernel reduction). -/
def jsTrim (s : String) : String :=
  ⟨((s.data.dropWhile Char.isWhitespace).reverse.dropWhile
      Char.isWhitespace).reverse⟩

/-- `formData.modelInput`: `{ type: 'link' | 'upload', value: string }`. -/
structure ModelInput where
  ty : String
  value : String
  deriving DecidableEq, Repr

/-- `formData.priceRange`: `{ selectedRange, min, max }`. -/
structure BudgetRange where
  selectedRange : String
  min : ℚ
  max : ℚ
  deriving DecidableEq, Repr

/-- The React form state of `PrintRequestForm` (one slot per entry of
`REQUEST_FIELDS`). -/
structure FormData where
  title : String
  modelInput : ModelInput
  material : String
  quantity : FieldValue
  urgencyDays : String
  priceRange : BudgetRange
  colors : List String
  shippingOption : String
  pickupLocation : String
  description : String
  deriving DecidableEq, Repr

/-- One descriptor of the declarative `REQUEST_FIELDS` schema (only the
parts validation reads: id, label, type tag, required flag). -/
structure Field where
  id : String
  label : String
  ty : String
  required : Bool
  deriving DecidableEq, Repr

/-- The `REQUEST_FIELDS` schema from `src/unnamed/part_000`, in source
order. -/
def REQUEST_FIELDS : List Field :=
  [ ⟨"title", "Project Title", "text", true⟩,
    ⟨"modelInput", "3D Model Data (STL/CAD)", "conditional_model_input", true⟩,
    ⟨"material", "Required Material", "select_with_other", true⟩,
    ⟨"quantity", "Quantity", "number", true⟩,
    ⟨"urgencyDays", "Required Urgency", "select", true⟩,
    ⟨"priceRange", "Budget Expectation (Total)", "conditional_budget_select", true⟩,
    ⟨"colors", "Colors/Finish", "multiselect_color_swatches", true⟩,
    ⟨"shippingOption", "Delivery Method", "conditional_select", true⟩,
    ⟨"pickupLocation", "Pickup Location", "select", true⟩,
    ⟨"description", "Detailed Description", "textarea", false⟩ ]

/-- An extended value domain for `formData[field.id]` as seen by the
validation loop (strings, numbers, null, string lists, and the two record
shapes). -/
inductive JSVal where
  | str (s : String)
  | num (q : ℚ)
  | null
  | list (l : List String)
  | budget (b : BudgetRange)
  | model (m : ModelInput)
  deriving DecidableEq, Repr

/-- `formData[field.id]` lookup. -/
def getField (fd : FormData) (id : String) : JSVal :=
  if id = "title" then .str fd.title
  else if id = "modelInput" then .model fd.modelInput
  else if id = "material" then .str fd.material
  else if id = "quantity" then
    match fd.quantity with
    | .str s => .str s
    | .num q => .num q
    | .null => .null
    | .list l => .list l
  else if id = "urgencyDays" then .str fd.urgencyDays
  else if id = "priceRange" then .budget fd.priceRange
  else if id = "colors" then .list fd.colors
  else if id = "shippingOption" then .str fd.shippingOption
  else if id = "pickupLocation" then .str fd.pickupLocation
  else if id = "description" then .str fd.description
  else .null

/-- JS truthiness of `!value.value || value.value.trim() === ''` on the
model-input check (for a non-record value, `value.value` is `undefined`,
which is falsy, so the condition is true — in the source the `field.id`
guard keeps that branch unreachable). -/
def modelValueBlank : JSVal → Bool
  | .model m => m.value = "" || jsTrim m.value = ""
  | _ => true

/-- JS `value.length === 0` (true for empty arrays and empty strings;
`undefined === 0` is false for the other shapes). -/
def jsLengthZero : JSVal → Bool
  | .list l => l.isEmpty
  | .str s => s = ""
  | _ => false

/-- JS `typeof value === 'string'`. -/
def jsIsString : JSVal → Bool
  | .str _ => true
  | _ => false

/-- JS string payload (only read under a `jsIsString` guard). -/
def jsStr : JSVal → String
  | .str s => s
  | _ => ""

/-- The body of the `for (const field of REQUEST_FIELDS)` loop of
`validateForm` (`src/unnamed/part_000`, lines 380–393): the sequence of
early-`return` checks for one field. -/
def checkField (fd : FormData) (f : Field) : Option String :=
  if !f.required then none
  else
    let value := getField fd f.id
    if f.id = "modelInput" && modelValueBlank value then
      some ("Model Data (" ++ fd.modelInput.ty ++ ") is required.")
    else if f.ty = "number" && (value = .num 0 || value = .null) then
      some (f.label ++ " cannot be zero.")
    else if f.ty = "multiselect_color_swatches" && jsLengthZero value then
      some (f.label ++ " is required.")
    else if f.id = "priceRange" && fd.priceRange.selectedRange = "Other"
        && (fd.priceRange.min ≤ 0 || fd.priceRange.max ≤ 0) then
      some "Please enter a valid Min/Max budget."
    else if f.id = "shippingOption" && value = .str "Pickup"
        && fd.pickupLocation = "" then
      some "Please select a pickup location."
    else if jsIsString value && jsTrim (jsStr value) = "" then
      some (f.label ++ " is required.")
    else none

/-- `validateForm` (`src/unnamed/part_000`): walks `REQUEST_FIELDS` in
schema order and returns the first failing check's message, or `none`
(JS `null`) when every check passes. -/
def validateForm (fd : FormData) : Option String :=
  REQUEST_FIELDS.findSome? (checkField fd)

/-- A stored offer document (`offerData` in `handleSubmitOffer`).
`price` is `parseFloat` of the price input; `none` models `NaN`. -/
structure OfferDoc where
  makerId : String
  price : Option ℚ
  message : String
  timestamp : Option Nat
  deriving DecidableEq, Repr

/-- One document of the `printRequests/{requestId}/offers` sub-collection,
tagged with its parent request id (the sub-collection path segment). -/
structure OfferEntry where
  requestId : String
  offer : OfferDoc
  deriving DecidableEq, Repr

/-- A stored print-request document (`requestData` in `handleSubmit`,
spread of the form data plus `requesterId`, `status`, `timestamp`; the
lifecycle fields `makerId` / `updatedAt` appear once a maker advances the
status). -/
structure RequestDoc where
  requesterId : String
  title : String
  modelInput : ModelInput
  material : String
  quantity : FieldValue
  urgencyDays : String
  priceRange : BudgetRange
  colors : List String
  shippingOption : String
  pickupLocation : String
  description : String
  status : String
  makerId : Option String
  timestamp : Option Nat
  updatedAt : Option Nat
  deriving DecidableEq, Repr

/-- The document store: the `printRequests` collection (documents keyed by
their store-assigned id) and the flat multiset of offer documents of all
`printRequests/{id}/offers` sub-collections. -/
structure Store where
  requests : List (String × RequestDoc)
  offers : List OfferEntry
  deriving DecidableEq, Repr

/-- The empty store. -/
def Store.empty : Store := ⟨[], []⟩

/-- Outcome of `handleSubmit` as surfaced in its status message: the auth
guard, the validation branch, or success carrying the new document id. -/
inductive SubmitResult where
  | authError
  | validationError (msg : String)
  | ok (id : String)
  deriving DecidableEq, Repr

/-- The document built by `handleSubmit` on the success path:
`{ ...formData, requesterId: userId, status: 'Pending',
timestamp: serverTimestamp() }`. -/
def mkRequestDoc (fd : FormData) (userId : String) (now : Nat) : RequestDoc :=
  { requesterId := userId
    title := fd.title
    modelInput := fd.modelInput
    material := fd.material
    quantity := fd.quantity
    urgencyDays := fd.urgencyDays
    priceRange := fd.priceRange
    colors := fd.colors
    shippingOption := fd.shippingOption
    pickupLocation := fd.pickupLocation
    description := fd.description
    status := "Pending"
    makerId := none
    timestamp := some now
    updatedAt := none }

/-- `handleSubmit` (`src/unnamed/part_000`, lines 395–430), a.k.a.
`submitRequest`: guard on auth readiness (`!db || !userId`), validate, and
only then issue the single `addDoc` create.  `newId` is the id the store
assigns to the created document; `now` the server timestamp. -/
def handleSubmit (fd : FormData) (userId : String) (newId : String)
    (now : Nat) (store : Store) : Store × SubmitResult :=
  if userId = "" then (store, .authError)
  else
    match validateForm fd with
    | some e => (store, .validationError e)
    | none =>
        ({ store with
            requests := store.requests ++ [(newId, mkRequestDoc fd userId now)] },
         .ok newId)

/-- Firestore `updateDoc` with a partial-fields merge: rewrite the document
at `requestId` (if present) through `upd`, leaving every other document
untouched. -/
def updateRequest (store : Store) (requestId : String)
    (upd : RequestDoc → RequestDoc) : Store :=
  { store with
      requests := store.requests.map
        (fun p => if p.1 = requestId then (p.1, upd p.2) else p) }

/-- Document lookup by id in the `printRequests` collection. -/
def lookupRequest (store : Store) (requestId : String) : Option RequestDoc :=
  (store.requests.find? (fun p => p.1 = requestId)).map (·.2)

/-- `handleUpdateStatus` (`src/PrintLink.jsx`, lines 187–206), a.k.a.
`advanceStatus`: guard on auth (`!userId`), compute the next status from
the caller's current-status snapshot ('Pending' → 'In Progress',
'In Progress' → 'Complete', anything else returns silently), then issue one
`updateDoc` with `{ status: nextStatus, makerId: userId,
updatedAt: serverTimestamp() }`.  The returned `Bool` records whether an
`updateDoc` write was issued at all. -/
def handleUpdateStatus (store : Store) (requestId : String)
    (currentStatus : String) (userId : String) (now : Nat) : Store × Bool :=
  if userId = "" then (store, false)
  else
    let nextStatus? : Option String :=
      if currentStatus = "Pending" then some "In Progress"
      else if currentStatus = "In Progress" then some "Complete"
      else none
    match nextStatus? with
    | none => (store, false)
    | some nextStatus =>
        (updateRequest store requestId
          (fun d => { d with
              status := nextStatus
              makerId := some userId
              updatedAt := some now }),
         true)

/-- Sort key used by both projection views:
`request.timestamp?.seconds || 0`. -/
def tsKey (p : String × RequestDoc) : Nat :=
  p.2.timestamp.getD 0

/-- The maker-view projection of `MakerDashboard`
(`src/unnamed/part_000`, lines 726–749): the store-side
`where('status', '==', 'Pending')` query, the client-side
`req.requesterId !== userId` filter, and the
`(a.timestamp?.seconds || 0) - (b.timestamp?.seconds || 0)` ascending sort
(oldest first; JS `Array.prototype.sort` with a numeric comparator is
modelled by a stable sort under the comparator's `≤`). -/
def makerView (store : Store) (userId : String) : List (String × RequestDoc) :=
  ((store.requests.filter (fun p => p.2.status = "Pending")).filter
      (fun p => p.2.requesterId ≠ userId)).insertionSort
    (fun a b => tsKey a ≤ tsKey b)

/-- One row of the requester view: `{ id: doc.id, ...doc.data(), offers }`. -/
structure ViewRequest where
  id : String
  doc : RequestDoc
  offers : List OfferDoc
  deriving DecidableEq, Repr

/-- The one-shot snapshot of the `printRequests/{requestId}/offers`
sub-collection taken per visible request. -/
def offersFor (store : Store) (requestId : String) : List OfferDoc :=
  (store.offers.filter (fun e => e.requestId = requestId)).map (·.offer)

/-- The requester-view projection of `RequesterRequestsList`
(`src/unnamed/part_000`, lines 542–580): the store-side
`where('requesterId', '==', userId)` query, one offers snapshot attached
per request, and the
`(b.timestamp?.seconds || 0) - (a.timestamp?.seconds || 0)` descending sort
(newest first). -/
def requesterView (store : Store) (userId : String) : List ViewRequest :=
  ((store.requests.filter (fun p => p.2.requesterId = userId)).map
      (fun p => ViewRequest.mk p.1 p.2 (offersFor store p.1))).insertionSort
    (fun a b => tsKey (b.id, b.doc) ≤ tsKey (a.id, a.doc))

/-- Model of the JS builtin `parseFloat`, restricted to decimal notation
(optional leading whitespace, optional sign, digits with an optional
fractional part; exponent notation is not modelled).  Returns `none` — the
model of `NaN` — when no digits can be consumed. -/
def parseFloat (s : String) : Option ℚ :=
  let cs := s.data.dropWhile Char.isWhitespace
  let signed : Bool × List Char :=
    match cs with
    | '-' :: rest => (true, rest)
    | '+' :: rest => (false, rest)
    | _ => (false, cs)
  let intPart := signed.2.takeWhile Char.isDigit
  let rest := signed.2.dropWhile Char.isDigit
  let fracPart : List Char :=
    match rest with
    | '.' :: r => r.takeWhile Char.isDigit
    | _ => []
  if intPart.isEmpty && fracPart.isEmpty then none
  else
    let digitsVal : List Char → Nat :=
      fun l => l.foldl (fun a c => a * 10 + (c.toNat - 48)) 0
    let mag : ℚ :=
      (digitsVal intPart : ℚ) +
        (digitsVal fracPart : ℚ) / ((10 : ℚ) ^ fracPart.length)
    some (if signed.1 then -mag else mag)

/-- JS `parseFloat(price) <= 0`: any comparison against `NaN` is false. -/
def jsLeZero : Option ℚ → Bool
  | some q => q ≤ 0
  | none => false

/-- Outcome of `handleSubmitOffer` as surfaced in its status text. -/
inductive OfferResult where
  | invalidPrice
  | ok
  deriving DecidableEq, Repr

/-- The `offerData` object built by `handleSubmitOffer`: `{ makerId,
price: parseFloat(price), message: message || <default embedding the
request title>, timestamp }`. -/
def mkOfferDoc (userId requestTitle price message : String)
    (now : Nat) : OfferDoc :=
  { makerId := userId
    price := parseFloat price
    message :=
      if message = "" then
        "Offer for \"" ++ requestTitle ++ "\" - see details in request."
      else message
    timestamp := some now }

/-- `handleSubmitOffer` (`src/unnamed/part_000`, lines 648–678), a.k.a.
`submitOffer`: guard `!db || !userId || !requestId ||
parseFloat(price) <= 0` (surfacing 'Please enter a valid price'), then one
`addDoc` of the `offerData` object into the
`printRequests/{requestId}/offers` sub-collection. -/
def handleSubmitOffer (store : Store) (userId requestId requestTitle : String)
    (price message : String) (now : Nat) : Store × OfferResult :=
  if userId = "" || requestId = "" || jsLeZero (parseFloat price) then
    (store, .invalidPrice)
  else
    ({ store with
        offers := store.offers ++
          [⟨requestId, mkOfferDoc userId requestTitle price message now⟩] },
     .ok)

/-- Specification-side predicate: field `f` of the schema is unsatisfied in
form state `fd` — a required field that is empty (blank string, blank model
value, empty colors selection) or holds the number zero / null, an 'Other'
budget entry with non-positive min or max, or a Pickup selection with no
pickup location. -/
def fieldUnsatisfied (fd : FormData) (f : Field) : Bool :=
  f.required &&
    ((f.id = "modelInput" && modelValueBlank (getField fd f.id)) ||
     (f.ty = "number" &&
       (getField fd f.id = .num 0 || getField fd f.id = .null)) ||
     (f.ty = "multiselect_color_swatches" && jsLengthZero (getField fd f.id)) ||
     (f.id = "priceRange" && fd.priceRange.selectedRange = "Other" &&
       (fd.priceRange.min ≤ 0 || fd.priceRange.max ≤ 0)) ||
     (f.id = "shippingOption" && getField fd f.id = .str "Pickup" &&
       fd.pickupLocation = "") ||
     (jsIsString (getField fd f.id) && jsTrim (jsStr (getField fd f.id)) = ""))

/-- Specification-side error text naming an unsatisfied field: the message
of the first failing check of that field, in the check order of the
validation loop. -/
def fieldErrorMsg (fd : FormData) (f : Field) : String :=
  if f.id = "modelInput" && modelValueBlank (getField fd f.id) then
    "Model Data (" ++ fd.modelInput.ty ++ ") is required."
  else if f.ty = "number" &&
      (getField fd f.id = .num 0 || getField fd f.id = .null) then
    f.label ++ " cannot be zero."
  else if f.ty = "multiselect_color_swatches" && jsLengthZero (getField fd f.id) then
    f.label ++ " is required."
  else if f.id = "priceRange" && fd.priceRange.selectedRange = "Other" &&
      (fd.priceRange.min ≤ 0 || fd.priceRange.max ≤ 0) then
    "Please enter a valid Min/Max budget."
  else if f.id = "shippingOption" && getField fd f.id = .str "Pickup" &&
      fd.pickupLocation = "" then
    "Please select a pickup location."
  else
    f.label ++ " is required."

/-- A fully valid sample form input (every required field satisfied). -/
def sampleForm : FormData :=
  { title := "Drone frame"
    modelInput := ⟨"link", "thingiverse.com/stl/123"⟩
    material := "PLA"
    quantity := .str "3"
    urgencyDays := "7 Days (Standard)"
    priceRange := ⟨"$0 - $50", 0, 50⟩
    colors := ["Black"]
    shippingOption := "Shipping"
    pickupLocation := "New York City, NY"
    description := "" }

/-- A sample stored request document: Pending, created by "alice" at
timestamp 1. -/
def sampleDoc : RequestDoc := mkRequestDoc sampleForm "alice" 1

/-- A sample store with one Pending request "r1" by "alice". -/
def sampleStore : Store := ⟨[("r1", sampleDoc)], []⟩

/-- A store whose only request is In Progress and already claimed by
"makerA". -/
def storeClaimed : Store :=
  ⟨[("r1", { sampleDoc with
      status := "In Progress", makerId := some "makerA", updatedAt := some 2 })],
   []⟩

/-- A store whose only request is Complete. -/
def storeComplete : Store :=
  ⟨[("r1", { sampleDoc with
      status := "Complete", makerId := some "makerA", updatedAt := some 3 })],
   []⟩

/-- The three-request store of the spec's maker-view example:
A Pending by "x", B In Progress by "y", C Pending by "maker". -/
def storeMakerEx : Store :=
  ⟨[("A", { sampleDoc with requesterId := "x", timestamp := some 1 }),
    ("B", { sampleDoc with
      requesterId := "y", status := "In Progress", timestamp := some 2 }),
    ("C", { sampleDoc with requesterId := "maker", timestamp := some 3 })],
   []⟩

/-- The requester-view example store: three requests by "R" created at
t = 1, 2, 3, the first carrying one offer. -/
def storeRequesterEx : Store :=
  ⟨[("q1", { sampleDoc with requesterId := "R", timestamp := some 1 }),
    ("q2", { sampleDoc with requesterId := "R", timestamp := some 2 }),
    ("q3", { sampleDoc with requesterId := "R", timestamp := some 3 }),
    ("q4", { sampleDoc with requesterId := "S", timestamp := some 4 })],
   [⟨"q1", { makerId := "m1", price := some 10, message := "hello",
             timestamp := some 5 }⟩]⟩

end PrintLink

section scratch
open PrintLink

example : PrintLink.validateForm sampleForm = none := by decide

example : PrintLink.validateForm { sampleForm with title := "  " } =
    some "Project Title is required." := by decide

example : PrintLink.validateForm { sampleForm with quantity := .str "0" } = none := by
  decide

example : PrintLink.validateForm { sampleForm with quantity := .num 0 } =
    some "Quantity cannot be zero." := by decide

example : PrintLink.validateForm { sampleForm with colors := [] } =
    some "Colors/Finish is required." := by decide

example : PrintLink.validateForm
    { sampleForm with priceRange := ⟨"Other", 0, 20⟩ } =
    some "Please enter a valid Min/Max budget." := by decide

example : PrintLink.validateForm
    { sampleForm with shippingOption := "Pickup", pickupLocation := "" } =
    some "Please select a pickup location." := by decide

example : PrintLink.parseFloat "12.50" = some (25/2 : ℚ) := by
  simp +decide [PrintLink.parseFloat]; norm_num
example : PrintLink.parseFloat "abc" = none := by decide
example : PrintLink.parseFloat "" = none := by decide
example : PrintLink.parseFloat "-3" = some (-3 : ℚ) := by
  simp +decide [PrintLink.parseFloat]
example : PrintLink.parseFloat "0" = some 0 := by
  simp +decide [PrintLink.parseFloat]
example : PrintLink.jsLeZero (PrintLink.parseFloat "abc") = false := by decide

example : (PrintLink.makerView storeMakerEx "maker").map Prod.fst = ["A"] := by decide

example : (PrintLink.requesterView storeRequesterEx "R").map ViewRequest.id =
    ["q3", "q2", "q1"] := by decide

end scratch

namespace PrintLink

/-! ## Helper lemmas -/

/-- `updateDoc` and lookup at the same id commute: the looked-up document
after the merge is the merged document. -/
theorem lookupRequest_updateRequest (store : Store) (requestId : String)
    (f : RequestDoc → RequestDoc) :
    lookupRequest (updateRequest store requestId f) requestId =
      (lookupRequest store requestId).map f := by
  obtain ⟨reqs, offs⟩ := store
  induction reqs with
  | nil => rfl
  | cons p t ih =>
    by_cases h : p.1 = requestId
    · simp [lookupRequest, updateRequest, List.find?, h]
    · simpa [lookupRequest, updateRequest, List.find?, h] using ih

/-- Each check of the validation loop body agrees with the
specification-side per-field predicate and error text. -/
theorem checkField_eq (fd : FormData) (f : Field) :
    checkField fd f =
      if fieldUnsatisfied fd f then some (fieldErrorMsg fd f) else none := by
  obtain ⟨fid, flabel, fty, freq⟩ := f
  unfold checkField fieldUnsatisfied fieldErrorMsg
  by_cases hreq : freq
  · simp only [hreq]
    split_ifs <;> (try simp_all) <;> (try aesop) <;> linarith
  · simp_all

/-- A `findSome?` whose function is pointwise an `if`-guarded message is the
`find?` of the guard, mapped through the message. -/
theorem findSome?_eq_find?_map {α β : Type} (p : α → Bool) (msg : α → β)
    (g : α → Option β) (l : List α)
    (h : ∀ a ∈ l, g a = if p a then some (msg a) else none) :
    l.findSome? g = (l.find? p).map msg := by
  induction l with
  | nil => rfl
  | cons a t ih =>
    have ha := h a (List.mem_cons_self a t)
    by_cases hp : p a
    · simp [List.findSome?, List.find?, ha, hp]
    · simp only [List.findSome?_cons, List.find?, ha, hp]
      simpa using ih (fun b hb => h b (List.mem_cons_of_mem a hb))

/-- The validation loop reports exactly the error of the first unsatisfied
field in schema order. -/
theorem validateForm_eq_firstUnsat (fd : FormData) :
    validateForm fd =
      (REQUEST_FIELDS.find? (fieldUnsatisfied fd)).map (fieldErrorMsg fd) :=
  findSome?_eq_find?_map (fieldUnsatisfied fd) (fieldErrorMsg fd)
    (checkField fd) REQUEST_FIELDS (fun f _ => checkField_eq fd f)

end PrintLink

namespace PrintLink

/-! ## Claim theorems -/

/-- C4: `advanceStatus` performs only the transitions
Pending → In Progress and In Progress → Complete; for any other current
status (in particular the terminal Complete) the call is a silent no-op for
every acting maker — it issues no write, changes nothing and raises no
error. -/
theorem advanceStatus_noop_on_terminal_status (store : Store)
    (requestId currentStatus userId : String) (now : Nat) :
    (currentStatus ≠ "Pending" → currentStatus ≠ "In Progress" →
      handleUpdateStatus store requestId currentStatus userId now =
        (store, false)) ∧
    (∀ doc, lookupRequest store requestId = some doc →
      doc.status = currentStatus →
      ∀ doc', lookupRequest
          (handleUpdateStatus store requestId currentStatus userId now).1
          requestId = some doc' →
        doc' = doc ∨
        (doc.status = "Pending" ∧ doc'.status = "In Progress") ∨
        (doc.status = "In Progress" ∧ doc'.status = "Complete")) := by
  constructor
  · intro h1 h2
    unfold handleUpdateStatus
    simp [h1, h2]
  · intro doc hdoc hst doc' hdoc'
    unfold handleUpdateStatus at hdoc'
    by_cases huid : userId = ""
    · simp [huid] at hdoc'
      left
      rw [hdoc] at hdoc'
      exact (Option.some_injective _ hdoc').symm
    · by_cases hp : currentStatus = "Pending"
      · simp [huid, hp] at hdoc'
        rw [lookupRequest_updateRequest, hdoc] at hdoc'
        simp only [Option.map_some'] at hdoc'
        obtain rfl := (Option.some_injective _ hdoc').symm
        right; left
        exact ⟨hst.trans hp, rfl⟩
      · by_cases hip : currentStatus = "In Progress"
        · simp [huid, hp, hip] at hdoc'
          rw [lookupRequest_updateRequest, hdoc] at hdoc'
          simp only [Option.map_some'] at hdoc'
          obtain rfl := (Option.some_injective _ hdoc').symm
          right; right
          exact ⟨hst.trans hip, rfl⟩
        · simp [huid, hp, hip] at hdoc'
          left
          rw [hdoc] at hdoc'
          exact (Option.some_injective _ hdoc').symm

/-- Witness for C4: on the Complete request of `storeComplete` the call is a
no-op with no write for an arbitrary acting maker, and on the Pending
request of `sampleStore` the performed step is one of the two permitted
transitions. -/
theorem advanceStatus_noop_on_terminal_status_witness :
    (handleUpdateStatus storeComplete "r1" "Complete" "makerB" 7 =
      (storeComplete, false)) ∧
    (({ sampleDoc with
          status := "In Progress", makerId := some "makerB",
          updatedAt := some 7 } : RequestDoc) = sampleDoc ∨
      (sampleDoc.status = "Pending" ∧
        ({ sampleDoc with
            status := "In Progress", makerId := some "makerB",
            updatedAt := some 7 } : RequestDoc).status = "In Progress") ∨
      (sampleDoc.status = "In Progress" ∧
        ({ sampleDoc with
            status := "In Progress", makerId := some "makerB",
            updatedAt := some 7 } : RequestDoc).status = "Complete")) :=
  ⟨(advanceStatus_noop_on_terminal_status storeComplete "r1" "Complete"
      "makerB" 7).1 (by decide) (by decide),
   (advanceStatus_noop_on_terminal_status sampleStore "r1" "Pending"
      "makerB" 7).2 sampleDoc (by decide) (by decide)
      { sampleDoc with
          status := "In Progress", makerId := some "makerB",
          updatedAt := some 7 } (by decide)⟩

/-- C1 (counterexample): on the In Progress → Complete transition the
source writes `makerId: userId` again, so a second maker's call overwrites
the stored makerId: request "r1" is claimed by "makerA", yet after
"makerB" advances it to Complete the stored makerId is "makerB". -/
theorem advanceStatus_overwrite_makerId_cex :
    (lookupRequest storeClaimed "r1").map RequestDoc.makerId =
      some (some "makerA") ∧
    (lookupRequest
        (handleUpdateStatus storeClaimed "r1" "In Progress" "makerB" 7).1
        "r1").map RequestDoc.makerId = some (some "makerB") ∧
    (lookupRequest
        (handleUpdateStatus storeClaimed "r1" "In Progress" "makerB" 7).1
        "r1").map RequestDoc.status = some "Complete" := by
  decide

/-- C1 (amended): on every successful transition — Pending → In Progress
and In Progress → Complete alike — `advanceStatus` sets the stored makerId
to the acting maker's identity (overwriting any previously stored makerId
on the later transition) and updates updatedAt. -/
theorem advanceStatus_sets_makerId_every_transition (store : Store)
    (requestId currentStatus userId : String) (now : Nat) (doc : RequestDoc)
    (huid : userId ≠ "")
    (hcur : currentStatus = "Pending" ∨ currentStatus = "In Progress")
    (hdoc : lookupRequest store requestId = some doc) :
    lookupRequest
        (handleUpdateStatus store requestId currentStatus userId now).1
        requestId =
      some { doc with
        status :=
          if currentStatus = "Pending" then "In Progress" else "Complete"
        makerId := some userId
        updatedAt := some now } := by
  unfold handleUpdateStatus
  rcases hcur with hp | hip
  · simp only [huid, hp]
    simp [lookupRequest_updateRequest, hdoc]
  · have hp : currentStatus ≠ "Pending" := by
      rw [hip]; decide
    simp only [huid, hip, hp]
    simp [lookupRequest_updateRequest, hdoc, hp]

/-- Witness for the amended C1: "makerB" completing the request claimed by
"makerA" stores makerId "makerB". -/
theorem advanceStatus_sets_makerId_every_transition_witness :
    lookupRequest
        (handleUpdateStatus storeClaimed "r1" "In Progress" "makerB" 7).1
        "r1" =
      some { { sampleDoc with
          status := "In Progress", makerId := some "makerA",
          updatedAt := some 2 } with
        status :=
          if ("In Progress" : String) = "Pending" then "In Progress"
          else "Complete"
        makerId := some "makerB"
        updatedAt := some 7 } :=
  advanceStatus_sets_makerId_every_transition storeClaimed "r1" "In Progress"
    "makerB" 7
    { sampleDoc with
        status := "In Progress", makerId := some "makerA",
        updatedAt := some 2 }
    (by decide) (Or.inr rfl) (by decide)

/-- C2 (counterexample): the zero check of the validation loop compares
with strict equality against the JS number 0, but the form state stores the
number input's value as a string, so a quantity entered as "0" — a zero
required field — passes validation and a document IS created: the claim's
"fails ... and no document is created" is violated at this input. -/
theorem submitRequest_zero_quantity_accepted_cex :
    validateForm { sampleForm with quantity := .num 0 } =
      some "Quantity cannot be zero." ∧
    validateForm { sampleForm with quantity := .str "0" } = none ∧
    handleSubmit { sampleForm with quantity := .str "0" } "alice" "id1" 5
        Store.empty =
      (⟨[("id1",
          mkRequestDoc { sampleForm with quantity := .str "0" } "alice" 5)],
        []⟩,
       .ok "id1") := by
  decide

/-- C2 (amended): whenever some schema field is unsatisfied — a required
field that is blank or holds the JS number 0 / null (a quantity typed as
the string "0" is NOT caught), an empty colors multi-select, an 'Other'
budget with non-positive min or max, or a Pickup selection with no
location — `submitRequest` fails with the `ValidationError` of the first
unsatisfied field in schema order and performs no create: the store is
returned unchanged. -/
theorem submitRequest_fails_on_first_unsatisfied_field (fd : FormData)
    (uid newId : String) (now : Nat) (store : Store) (f : Field)
    (hf : REQUEST_FIELDS.find? (fieldUnsatisfied fd) = some f)
    (huid : uid ≠ "") :
    validateForm fd = some (fieldErrorMsg fd f) ∧
    handleSubmit fd uid newId now store =
      (store, .validationError (fieldErrorMsg fd f)) := by
  have hv : validateForm fd = some (fieldErrorMsg fd f) := by
    rw [validateForm_eq_firstUnsat, hf, Option.map_some']
  refine ⟨hv, ?_⟩
  unfold handleSubmit
  simp [huid, hv]

/-- Witness for the amended C2: with the colors multi-select left empty the
first unsatisfied field is Colors/Finish, the reported error names it, and
the store is unchanged. -/
theorem submitRequest_fails_on_first_unsatisfied_field_witness :
    validateForm { sampleForm with colors := [] } =
      some (fieldErrorMsg { sampleForm with colors := [] }
        ⟨"colors", "Colors/Finish", "multiselect_color_swatches", true⟩) ∧
    handleSubmit { sampleForm with colors := [] } "alice" "id1" 5
        sampleStore =
      (sampleStore,
       .validationError (fieldErrorMsg { sampleForm with colors := [] }
         ⟨"colors", "Colors/Finish", "multiselect_color_swatches", true⟩)) :=
  submitRequest_fails_on_first_unsatisfied_field
    { sampleForm with colors := [] } "alice" "id1" 5 sampleStore
    ⟨"colors", "Colors/Finish", "multiselect_color_swatches", true⟩
    (by decide) (by decide)

/-- C3: for every viewing maker M the maker view holds exactly the stored
requests that are Pending and not M's own (so M never sees — and can never
submit an offer on — M's own request), ordered oldest-first by creation
timestamp. -/
theorem makerView_pending_not_own_oldest_first (store : Store)
    (userId : String) :
    (makerView store userId).Perm
      (store.requests.filter
        (fun p => p.2.status = "Pending" && p.2.requesterId ≠ userId)) ∧
    (makerView store userId).Pairwise (fun a b => tsKey a ≤ tsKey b) ∧
    (∀ p ∈ makerView store userId,
      p.2.status = "Pending" ∧ p.2.requesterId ≠ userId) := by
  have hperm : (makerView store userId).Perm
      (store.requests.filter
        (fun p => p.2.status = "Pending" && p.2.requesterId ≠ userId)) := by
    have h1 : (makerView store userId).Perm
        ((store.requests.filter (fun p => p.2.status = "Pending")).filter
          (fun p => p.2.requesterId ≠ userId)) := by
      unfold makerView
      exact List.perm_insertionSort _ _
    have h2 : ((store.requests.filter (fun p => p.2.status = "Pending")).filter
          (fun p => p.2.requesterId ≠ userId)) =
        store.requests.filter
          (fun p => p.2.status = "Pending" && p.2.requesterId ≠ userId) := by
      rw [List.filter_filter]
      exact List.filter_congr (fun x _ => Bool.and_comm _ _)
    exact h2 ▸ h1
  refine ⟨hperm, ?_, ?_⟩
  · haveI : IsTotal (String × RequestDoc) (fun a b => tsKey a ≤ tsKey b) :=
      ⟨fun a b => Nat.le_total _ _⟩
    haveI : IsTrans (String × RequestDoc) (fun a b => tsKey a ≤ tsKey b) :=
      ⟨fun _ _ _ => Nat.le_trans⟩
    unfold makerView
    exact List.sorted_insertionSort (fun a b => tsKey a ≤ tsKey b) _
  · intro p hp
    have := hperm.mem_iff.mp hp
    have hmem := List.of_mem_filter this
    simpa using hmem

/-- Witness for C3 at the spec's example store (A Pending by "x",
B In Progress by "y", C Pending by "maker", viewed by "maker"): only A is
Pending and not the maker's own. -/
theorem makerView_pending_not_own_oldest_first_witness :
    ("A", ({ sampleDoc with requesterId := "x", timestamp := some 1 } :
        RequestDoc)).2.status = "Pending" ∧
    ("A", ({ sampleDoc with requesterId := "x", timestamp := some 1 } :
        RequestDoc)).2.requesterId ≠ "maker" :=
  (makerView_pending_not_own_oldest_first storeMakerEx "maker").2.2
    ("A", { sampleDoc with requesterId := "x", timestamp := some 1 })
    (by decide)

/-- C5: for every form input passing the field-schema validation,
`submitRequest` succeeds, performs exactly one create against the store
(one request appended, offers untouched), and the persisted request has
status Pending, no makerId, the caller's identity as requesterId, and its
identifier is returned. -/
theorem submitRequest_valid_creates_pending_request (fd : FormData)
    (uid newId : String) (now : Nat) (store : Store)
    (hv : validateForm fd = none) (huid : uid ≠ "") :
    handleSubmit fd uid newId now store =
      ({ store with
          requests := store.requests ++ [(newId, mkRequestDoc fd uid now)] },
       .ok newId) ∧
    (mkRequestDoc fd uid now).status = "Pending" ∧
    (mkRequestDoc fd uid now).makerId = none ∧
    (mkRequestDoc fd uid now).requesterId = uid := by
  refine ⟨?_, rfl, rfl, rfl⟩
  unfold handleSubmit
  simp [huid, hv]

/-- Witness for C5 at the valid sample form. -/
theorem submitRequest_valid_creates_pending_request_witness :
    handleSubmit sampleForm "alice" "id1" 5 sampleStore =
      ({ sampleStore with
          requests :=
            sampleStore.requests ++ [("id1", mkRequestDoc sampleForm "alice" 5)] },
       .ok "id1") ∧
    (mkRequestDoc sampleForm "alice" 5).status = "Pending" ∧
    (mkRequestDoc sampleForm "alice" 5).makerId = none ∧
    (mkRequestDoc sampleForm "alice" 5).requesterId = "alice" :=
  submitRequest_valid_creates_pending_request sampleForm "alice" "id1" 5
    sampleStore (by decide) (by decide)

/-- C6: for every requester R the requester view holds exactly R's
requests, each annotated with the full set of offers stored under it,
sorted newest-first by creation timestamp. -/
theorem requesterView_own_requests_newest_first (store : Store)
    (userId : String) :
    ((requesterView store userId).map (fun v => (v.id, v.doc))).Perm
      (store.requests.filter (fun p => p.2.requesterId = userId)) ∧
    (∀ v ∈ requesterView store userId,
      v.doc.requesterId = userId ∧ v.offers = offersFor store v.id) ∧
    (requesterView store userId).Pairwise
      (fun a b => tsKey (b.id, b.doc) ≤ tsKey (a.id, a.doc)) := by
  have hmem : ∀ v ∈ requesterView store userId,
      v ∈ (store.requests.filter (fun p => p.2.requesterId = userId)).map
        (fun p => ViewRequest.mk p.1 p.2 (offersFor store p.1)) := by
    intro v hv
    unfold requesterView at hv
    exact (List.perm_insertionSort _ _).mem_iff.mp hv
  refine ⟨?_, ?_, ?_⟩
  · have h1 : (requesterView store userId).Perm
        ((store.requests.filter (fun p => p.2.requesterId = userId)).map
          (fun p => ViewRequest.mk p.1 p.2 (offersFor store p.1))) := by
      unfold requesterView
      exact List.perm_insertionSort _ _
    have h2 := h1.map (fun v => (v.id, v.doc))
    rwa [List.map_map, show
        ((fun v : ViewRequest => (v.id, v.doc)) ∘
          (fun p : String × RequestDoc =>
            ViewRequest.mk p.1 p.2 (offersFor store p.1))) =
        (fun p => p) from rfl, List.map_id'] at h2
  · intro v hv
    obtain ⟨p, hp, rfl⟩ := List.mem_map.mp (hmem v hv)
    exact ⟨of_decide_eq_true (List.mem_filter.mp hp).2, rfl⟩
  · haveI : IsTotal ViewRequest
        (fun (a b : ViewRequest) => tsKey (b.id, b.doc) ≤ tsKey (a.id, a.doc)) :=
      ⟨fun a b => Nat.le_total _ _⟩
    haveI : IsTrans ViewRequest
        (fun (a b : ViewRequest) => tsKey (b.id, b.doc) ≤ tsKey (a.id, a.doc)) :=
      ⟨fun _ _ _ hab hbc => Nat.le_trans hbc hab⟩
    unfold requesterView
    exact List.sorted_insertionSort
      (fun (a b : ViewRequest) => tsKey (b.id, b.doc) ≤ tsKey (a.id, a.doc)) _

/-- Witness for C6 at the example store (requests by "R" at t = 1, 2, 3 and
one foreign request): the t = 1 request's view row carries exactly its
stored offers. -/
theorem requesterView_own_requests_newest_first_witness :
    (ViewRequest.mk "q1"
        { sampleDoc with requesterId := "R", timestamp := some 1 }
        (offersFor storeRequesterEx "q1")).doc.requesterId = "R" ∧
    (ViewRequest.mk "q1"
        { sampleDoc with requesterId := "R", timestamp := some 1 }
        (offersFor storeRequesterEx "q1")).offers =
      offersFor storeRequesterEx
        (ViewRequest.mk "q1"
          { sampleDoc with requesterId := "R", timestamp := some 1 }
          (offersFor storeRequesterEx "q1")).id :=
  (requesterView_own_requests_newest_first storeRequesterEx "R").2.1
    (ViewRequest.mk "q1"
      { sampleDoc with requesterId := "R", timestamp := some 1 }
      (offersFor storeRequesterEx "q1"))
    (by decide)

/-- C7: `submitOffer` rejects every price parsing to a value ≤ 0 with a
validation error and creates no offer document; for every positive parsed
price (with auth and request id present) it succeeds and appends exactly
one offer under the request. -/
theorem submitOffer_price_validation (store : Store)
    (uid rid title price msg : String) (now : Nat) (q : ℚ) :
    (parseFloat price = some q → q ≤ 0 →
      handleSubmitOffer store uid rid title price msg now =
        (store, .invalidPrice)) ∧
    (parseFloat price = some q → 0 < q → uid ≠ "" → rid ≠ "" →
      handleSubmitOffer store uid rid title price msg now =
        ({ store with
            offers := store.offers ++
              [⟨rid, mkOfferDoc uid title price msg now⟩] },
         .ok)) := by
  constructor
  · intro hq hle
    unfold handleSubmitOffer
    have : jsLeZero (parseFloat price) = true := by
      rw [hq]; simpa [jsLeZero] using hle
    simp [this]
  · intro hq hpos huid hrid
    unfold handleSubmitOffer
    have : jsLeZero (parseFloat price) = false := by
      rw [hq]; simpa [jsLeZero] using not_le.mpr hpos
    simp [this, huid, hrid]

/-- Witness for C7: price "0" is rejected leaving the store unchanged, and
price "12.50" succeeds, appending exactly one offer under "r1". -/
theorem submitOffer_price_validation_witness :
    (handleSubmitOffer sampleStore "m1" "r1" "Drone frame" "0" "msg" 9 =
      (sampleStore, .invalidPrice)) ∧
    (handleSubmitOffer sampleStore "m1" "r1" "Drone frame" "12.50" "msg" 9 =
      ({ sampleStore with
          offers := sampleStore.offers ++
            [⟨"r1", mkOfferDoc "m1" "Drone frame" "12.50" "msg" 9⟩] },
       .ok)) :=
  ⟨(submitOffer_price_validation sampleStore "m1" "r1" "Drone frame" "0"
      "msg" 9 0).1 (by simp +decide [parseFloat]) (by norm_num),
   (submitOffer_price_validation sampleStore "m1" "r1" "Drone frame" "12.50"
      "msg" 9 (25/2)).2
     (by simp +decide [parseFloat]; norm_num) (by norm_num)
     (by decide) (by decide)⟩

/-- C8: every successful `submitOffer` call appends the offer as a child
document of the request and leaves every stored request document — in
particular the parent request, with all its fields — unchanged. -/
theorem submitOffer_preserves_parent_request (store : Store)
    (uid rid title price msg : String) (now : Nat)
    (h : (handleSubmitOffer store uid rid title price msg now).2 = .ok) :
    (handleSubmitOffer store uid rid title price msg now).1.requests =
      store.requests ∧
    lookupRequest (handleSubmitOffer store uid rid title price msg now).1
        rid = lookupRequest store rid ∧
    (handleSubmitOffer store uid rid title price msg now).1.offers =
      store.offers ++ [⟨rid, mkOfferDoc uid title price msg now⟩] := by
  unfold handleSubmitOffer at h ⊢
  by_cases hg : (uid = "" || rid = "" || jsLeZero (parseFloat price)) = true
  · rw [if_pos hg] at h
    simp at h
  · rw [if_neg hg] at h ⊢
    exact ⟨rfl, rfl, rfl⟩

/-- Witness for C8 at a successful concrete call. -/
theorem submitOffer_preserves_parent_request_witness :
    (handleSubmitOffer sampleStore "m1" "r1" "Drone frame" "12.50" "hi" 9).1.requests =
      sampleStore.requests ∧
    lookupRequest
        (handleSubmitOffer sampleStore "m1" "r1" "Drone frame" "12.50" "hi" 9).1
        "r1" = lookupRequest sampleStore "r1" ∧
    (handleSubmitOffer sampleStore "m1" "r1" "Drone frame" "12.50" "hi" 9).1.offers =
      sampleStore.offers ++
        [⟨"r1", mkOfferDoc "m1" "Drone frame" "12.50" "hi" 9⟩] :=
  submitOffer_preserves_parent_request sampleStore "m1" "r1" "Drone frame"
    "12.50" "hi" 9
    (by simp +decide [handleSubmitOffer, jsLeZero, parseFloat]; norm_num)

/-- C9: when the message argument is empty, the stored offer's message is
not empty — it is the generated default text embedding the request's
title. -/
theorem submitOffer_empty_message_default (store : Store)
    (uid rid title price : String) (now : Nat)
    (huid : uid ≠ "") (hrid : rid ≠ "")
    (hp : jsLeZero (parseFloat price) = false) :
    handleSubmitOffer store uid rid title price "" now =
      ({ store with
          offers := store.offers ++
            [⟨rid, mkOfferDoc uid title price "" now⟩] },
       .ok) ∧
    (mkOfferDoc uid title price "" now).message =
      "Offer for \"" ++ title ++ "\" - see details in request." ∧
    (mkOfferDoc uid title price "" now).message ≠ "" := by
  refine ⟨?_, rfl, ?_⟩
  · unfold handleSubmitOffer
    simp [huid, hrid, hp]
  · show "Offer for \"" ++ title ++ "\" - see details in request." ≠ ""
    intro hcontra
    have hl := congrArg String.length hcontra
    simp only [String.length_append] at hl
    have h1 : (0:Nat) < "Offer for \"".length := by decide
    have h2 : String.length "" = 0 := rfl
    omega

/-- Witness for C9 at a concrete empty-message call. -/
theorem submitOffer_empty_message_default_witness :
    handleSubmitOffer sampleStore "m1" "r1" "Drone frame" "12.50" "" 9 =
      ({ sampleStore with
          offers := sampleStore.offers ++
            [⟨"r1", mkOfferDoc "m1" "Drone frame" "12.50" "" 9⟩] },
       .ok) ∧
    (mkOfferDoc "m1" "Drone frame" "12.50" "" 9).message =
      "Offer for \"Drone frame\" - see details in request." ∧
    (mkOfferDoc "m1" "Drone frame" "12.50" "" 9).message ≠ "" :=
  submitOffer_empty_message_default sampleStore "m1" "r1" "Drone frame"
    "12.50" 9 (by decide) (by decide)
    (by simp +decide [jsLeZero, parseFloat]; norm_num)

/-- C10: a non-numeric price input ("abc", parsing to NaN) is not rejected
by the `parseFloat(price) <= 0` guard, and an offer document is created
whose price field is not a numeric amount at all (NaN, modelled `none`). -/
theorem submitOffer_nan_price_accepted :
    parseFloat "abc" = none ∧
    handleSubmitOffer sampleStore "m1" "r1" "Drone frame" "abc" "hello" 9 =
      ({ sampleStore with
          offers := sampleStore.offers ++
            [⟨"r1", ⟨"m1", none, "hello", some 9⟩⟩] },
       .ok) ∧
    (mkOfferDoc "m1" "Drone frame" "abc" "hello" 9).price = none := by
  decide

end PrintLink
